import Mathlib

/-!
Verification development for the `ecom-crawler` repository.

The development shallowly embeds the crawl engine of the repository:
`src/services/crawler.js` (batch crawler), `src/services/oldcrawler.js`
(depth-tracking crawler), and `src/services/playwright-config.js`
(render-based content classifier).  JavaScript strings are Lean `String`s,
JS `Set`s are insertion-ordered duplicate-free `List String`s, and the
external boundaries (HTTP fetch + link extraction, page rendering, the
database) are modelled as explicit oracle parameters:

* `web : String → Option (List String)` — fetching a URL and extracting
  its in-page links (`axios.get` + `extractLinks`); `none` is a fetch
  failure (timeout, network error, non-2xx), which the source catches and
  turns into `success = false` with no links.
* `pages : String → Option RenderedPage` — rendering a URL in the
  headless browser and reading its DOM facts; `none` is a render/evaluate
  failure, which the source catches (returning `false` from the
  classifier).
* storage is a list of `(url, domain_id)` rows with uniqueness on `url`,
  mirroring the `product_urls` table and its `ON CONFLICT (url) DO
  NOTHING` upsert.
-/

/-- Substring test on character lists: `true` iff `pat` occurs
contiguously inside the second list.  Used to model JS
`String.prototype.includes` and the alternation-only regexes of the
source (a regex `/a|b|c/.test(s)` is exactly "some alternative is a
substring of `s`"). -/
def containsSeg (pat : List Char) : List Char → Bool
  | [] => pat.isEmpty
  | c :: rest => pat.isPrefixOf (c :: rest) || containsSeg pat rest

/-- `strContains s pat`: `pat` occurs as a substring of `s`. -/
def strContains (s pat : String) : Bool :=
  containsSeg pat.data s.data

/-- ASCII lower-casing, modelling `String.prototype.toLowerCase` on the
ASCII strings (URLs, metadata values) the crawler handles. -/
def strLower (s : String) : String :=
  String.mk (s.data.map Char.toLower)

/-- `strEndsWith s sfx`: `sfx` is a suffix of `s`, modelling JS
`String.prototype.endsWith`. -/
def strEndsWith (s sfx : String) : Bool :=
  sfx.data.isSuffixOf s.data

/-- Split a character list at the first occurrence of the scheme marker
`"://"`: returns the part before the marker and the part after it, or
`none` when the marker does not occur. -/
def splitSchemeMarker : List Char → Option (List Char × List Char)
  | [] => none
  | c :: rest =>
    if [':', '/', '/'].isPrefixOf (c :: rest) then
      some ([], rest.drop 2)
    else
      match splitSchemeMarker rest with
      | some (pre, post) => some (c :: pre, post)
      | none => none

/-- Suffix of a character list after its last `'@'` (the whole list when
no `'@'` occurs): the WHATWG URL parser takes the host to start after the
last `'@'` of the authority (user-info separator). -/
def afterLastAt : List Char → List Char
  | [] => []
  | c :: rest =>
    if rest.contains '@' then afterLastAt rest
    else if c == '@' then rest
    else c :: rest

/-- Model of `new URL(s).hostname` for the common `scheme://…` URL shapes
the crawler works with: the scheme (non-empty, alphabetic) is separated
by `"://"`; the authority runs until the first `'/'`, `'?'` or `'#'`;
user-info up to the last `'@'` is dropped; a `':'`-separated port is
dropped.  `none` models the constructor throwing on a malformed URL
(no scheme separator, empty or non-alphabetic scheme, empty host). -/
def urlHostname (s : String) : Option String :=
  match splitSchemeMarker s.data with
  | none => none
  | some (scheme, after) =>
    if scheme.isEmpty || !scheme.all Char.isAlpha then none
    else
      let authority := after.takeWhile (fun c => !(c == '/' || c == '?' || c == '#'))
      let hostPort := afterLastAt authority
      let host := hostPort.takeWhile (fun c => !(c == ':'))
      if host.isEmpty then none else some (String.mk host)

/-- `isUrlInDomain` from `src/services/crawler.js` (the identical copy in
`src/services/oldcrawler.js` is the same function): both URLs are parsed,
their hostnames lower-cased, and the url is in-domain iff its host equals
the target's host or ends with `"." + targetHost`; any parse failure is
caught and yields `false`. -/
def isUrlInDomain (url targetDomain : String) : Bool :=
  match urlHostname url, urlHostname targetDomain with
  | some uh, some th =>
    (strLower uh == strLower th) || strEndsWith (strLower uh) ("." ++ strLower th)
  | _, _ => false

/-- `config.productPatterns` from `src/config/index.js`: the single
regex `/\/(product|item|p)\//i`, i.e. the URL contains one of the path
segments `/product/`, `/item/`, `/p/` case-insensitively. -/
def configProductPatterns (url : String) : Bool :=
  ["/product/", "/item/", "/p/"].any (fun p => strContains (strLower url) p)

/-- The inline pattern of `isLikelyProductByPattern` in
`src/services/crawler.js`:
`/\/p\/|\/product\/|\/item\/|\/pd\/|[?&](pid|product_id|productid|itemid|sku)=/i`. -/
def inlineProductPattern (url : String) : Bool :=
  (["/p/", "/product/", "/item/", "/pd/"].any (fun p => strContains (strLower url) p)) ||
  (["pid", "product_id", "productid", "itemid", "sku"].any (fun k =>
    strContains (strLower url) ("?" ++ k ++ "=") ||
    strContains (strLower url) ("&" ++ k ++ "=")))

/-- `isLikelyProductByPattern` from `src/services/crawler.js`: the
config patterns or the inline pattern match.  The `patternMatchCache`
memoization of the source caches the value of this pure function per URL
and is semantically transparent, so it is not modelled. -/
def isLikelyProductByPattern (url : String) : Bool :=
  configProductPatterns url || inlineProductPattern url

/-- The URL-pattern list of `isProductPageOptimized` in
`src/services/playwright-config.js`:
`['/product/', '/p/', '/item/', '/pd/', '/shop/', '/buy/']`, tested by
`urlLowerCase.includes(pattern)`. -/
def hasProductUrlPattern (url : String) : Bool :=
  ["/product/", "/p/", "/item/", "/pd/", "/shop/", "/buy/"].any
    (fun p => strContains (strLower url) p)

/-- `hasProductIdParam` of `isProductPageOptimized`:
`/[?&](pid|product_id|productid|itemid|sku|id)=/i.test(url)`. -/
def hasProductIdParam (url : String) : Bool :=
  ["pid", "product_id", "productid", "itemid", "sku", "id"].any (fun k =>
    strContains (strLower url) ("?" ++ k ++ "=") ||
    strContains (strLower url) ("&" ++ k ++ "="))

/-- The structural DOM facts read by the second `page.evaluate` of
`isProductPageOptimized` (title / price / add-to-cart / options / image
gallery / breadcrumbs / description / reviews / related-products
selectors).  The DOM queries themselves are the render-service boundary;
each field records whether the corresponding selector group matched. -/
structure ProductIndicators where
  hasTitle : Bool
  hasPrice : Bool
  hasAddToCart : Bool
  hasOptions : Bool
  hasProductImages : Bool
  hasBreadcrumbs : Bool
  hasDescription : Bool
  hasReviews : Bool
  hasRelatedProducts : Bool
deriving Repr, DecidableEq

/-- The raw metadata facts of a rendered page, as read by the first
`page.evaluate` of `isProductPageOptimized`:

* `ogType`, `ogTitle` — content of `meta[property="og:type"]` /
  `meta[property="og:title"]` (`none` when the tag is absent);
* `hasProductPriceMeta` — `meta[property="product:price:amount"]` exists;
* `hasItemPropPrice` — an `[itemprop="price"]` element exists;
* `hasSchemaProduct` — some `application/ld+json` script parses to JSON
  whose `@type` is `"Product"` (directly or inside `@graph`);
* `hasMicrodataProduct` — an `[itemtype*="schema.org/Product"]` element
  exists.

The structural indicator record of the same page is carried alongside. -/
structure RenderedPage where
  ogType : Option String
  ogTitle : Option String
  hasProductPriceMeta : Bool
  hasItemPropPrice : Bool
  hasSchemaProduct : Bool
  hasMicrodataProduct : Bool
  indicators : ProductIndicators
deriving Repr, DecidableEq

/-- The `metaChecks` object computed inside `isProductPageOptimized`. -/
structure MetaChecks where
  isOgProduct : Bool
  hasProductTitle : Bool
  hasSchemaProduct : Bool
  hasProductMeta : Bool
  hasItemProp : Bool
  hasMicrodata : Bool
deriving Repr, DecidableEq

/-- The `metaChecks` evaluation of `isProductPageOptimized`:
`isOgProduct` is `ogType?.toLowerCase().includes('product')` (falsy when
the tag is missing); `hasProductTitle` is
`ogTitle && /buy|shop|product|item/i.test(ogTitle)`; the remaining fields
are the raw page facts. -/
def metaChecksOf (pg : RenderedPage) : MetaChecks :=
  { isOgProduct :=
      match pg.ogType with
      | some t => strContains (strLower t) "product"
      | none => false
    hasProductTitle :=
      match pg.ogTitle with
      | some t => ["buy", "shop", "product", "item"].any (fun w => strContains (strLower t) w)
      | none => false
    hasSchemaProduct := pg.hasSchemaProduct
    hasProductMeta := pg.hasProductPriceMeta
    hasItemProp := pg.hasItemPropPrice
    hasMicrodata := pg.hasMicrodataProduct }

/-- The confidence score of `isProductPageOptimized`, with the exact
weights of the source (lines 204–219 of
`src/services/playwright-config.js`). -/
def confidenceScore (url : String) (m : MetaChecks) (p : ProductIndicators) : Nat :=
  (if hasProductUrlPattern url then 2 else 0) +
  (if hasProductIdParam url then 2 else 0) +
  (if m.hasProductTitle then 1 else 0) +
  (if m.hasProductMeta then 2 else 0) +
  (if m.hasItemProp then 2 else 0) +
  (if p.hasTitle then 3 else 0) +
  (if p.hasPrice then 3 else 0) +
  (if p.hasAddToCart then 4 else 0) +
  (if p.hasOptions then 2 else 0) +
  (if p.hasProductImages then 1 else 0) +
  (if p.hasBreadcrumbs then 1 else 0) +
  (if p.hasDescription then 2 else 0) +
  (if p.hasReviews then 1 else 0) +
  (if p.hasRelatedProducts then 1 else 0)

/-- `isProductPageOptimized` from `src/services/playwright-config.js`.
The argument is the rendered page, `none` standing for any failure of
`page.goto`/`page.evaluate` within the 10s timeout, which the source's
`catch` turns into `false`.  On a rendered page: if a strong metadata
signal is present (`hasSchemaProduct || isOgProduct || hasMicrodata`) the
function returns `true` early; otherwise the page is a product iff the
confidence score reaches the fixed threshold `7`. -/
def isProductPageOptimized (url : String) (page : Option RenderedPage) : Bool :=
  match page with
  | none => false
  | some pg =>
    let m := metaChecksOf pg
    if m.hasSchemaProduct || m.isOgProduct || m.hasMicrodata then true
    else decide (7 ≤ confidenceScore url m pg.indicators)

/-- `checkMultipleUrls` from `src/services/playwright-config.js`: every
URL of the batch receives the verdict of `isProductPageOptimized`, a
rejected check being caught and recorded as `false` (folded here into
`pages u = none`).  The source processes the list in chunks of
`concurrency` with `Promise.all`, which only bounds parallelism: the
resulting `results` object assigns each URL its verdict exactly as this
map does. -/
def checkMultipleUrls (pages : String → Option RenderedPage) (urls : List String) :
    List (String × Bool) :=
  urls.map (fun u => (u, isProductPageOptimized u (pages u)))

/-- Insertion into an insertion-ordered duplicate-free list, modelling
JS `Set.prototype.add`. -/
def setAdd (s : List String) (u : String) : List String :=
  if u ∈ s then s else s ++ [u]

/-- The in-domain-and-unvisited filter of `processBatch`
(`src/services/crawler.js` line 88):
`urls.filter(url => isUrlInDomain(url, baseUrl) && !visited.has(url))`. -/
def batchFiltered (urls : List String) (baseUrl : String) (visited : List String) :
    List String :=
  urls.filter (fun u => isUrlInDomain u baseUrl && !decide (u ∈ visited))

/-- The `needCheckUrls` list of `processBatch`: filtered URLs not matched
by the pattern classifier; exactly this list is handed to
`checkMultipleUrls` (the render-based check). -/
def batchNeedCheck (urls : List String) (baseUrl : String) (visited : List String) :
    List String :=
  (batchFiltered urls baseUrl visited).filter (fun u => !isLikelyProductByPattern u)

/-- Result record of `processBatch`. -/
structure BatchResult where
  crawlUrls : List String
  productUrls : List String
deriving Repr, DecidableEq

/-- `processBatch` from `src/services/crawler.js`: filter to in-domain
unvisited URLs, split on the pattern classifier, render-check only the
remainder, return all products (`likelyProductUrls ++ confirmed`) and the
non-product URLs as the next crawl candidates
(`filteredUrls.filter(url => !allProductUrls.includes(url))`). -/
def processBatch (urls : List String) (baseUrl : String) (visited : List String)
    (pages : String → Option RenderedPage) : BatchResult :=
  let filtered := batchFiltered urls baseUrl visited
  let likely := filtered.filter (fun u => isLikelyProductByPattern u)
  let needCheck := batchNeedCheck urls baseUrl visited
  let results := checkMultipleUrls pages needCheck
  let confirmed := (results.filter (fun r => r.2)).map (fun r => r.1)
  let allProducts := likely ++ confirmed
  { crawlUrls := filtered.filter (fun u => !decide (u ∈ allProducts))
    productUrls := allProducts }

/-- `config.maxDepth` from `src/config/index.js`. -/
def maxDepth : Nat := 3

/-- `batchSize` of `crawlDomain` (`src/services/crawler.js` line 156). -/
def batchSize : Nat := 20

/-- `success` flag of the per-URL fetch result built in `crawlDomain`:
`true` on a successful `axios.get`, `false` when the `catch` produced
`{ url, data: null, success: false }`. -/
def fetchSuccess (web : String → Option (List String)) (u : String) : Bool :=
  (web u).isSome

/-- Links extracted from the fetched batch (`src/services/crawler.js`
lines 197–201): each successful response contributes its extracted
links in batch order, a failed fetch contributes nothing. -/
def batchLinks (web : String → Option (List String)) : List String → List String
  | [] => []
  | u :: rest =>
    (match web u with | some ls => ls | none => []) ++ batchLinks web rest

/-- The in-memory state of a `crawlDomain` run: the `visited` and
`productUrls` sets, the `pagesToCrawl` frontier (all JS `Set`s, modelled
as insertion-ordered duplicate-free lists), the `product_urls` table
rows, a counter of flush attempts (used to address the failure oracle),
and a ghost trace `expanded` of the URLs actually dispatched to the
fetch pool, in order. -/
structure CrawlState where
  visited : List String
  products : List String
  pending : List String
  storage : List (String × Nat)
  flushCount : Nat
  expanded : List String
deriving Repr, DecidableEq

/-- `batchInsertProductUrls` from `src/services/crawler.js`: a single
bulk `INSERT … ON CONFLICT (url) DO NOTHING` against `product_urls`,
whose rows are unique on `url`; rows are inserted in list order and a
URL already stored (including earlier in the same statement) is
skipped. -/
def flushRows (storage : List (String × Nat)) (urls : List String) (domainId : Nat) :
    List (String × Nat) :=
  urls.foldl (fun st u => if u ∈ st.map Prod.fst then st else st ++ [(u, domainId)]) storage

/-- One iteration of the `while (pagesToCrawl.size > 0)` loop of
`crawlDomain`: take the first `batchSize` frontier URLs, remove them
from the frontier and mark them visited, fetch them (failures caught,
contributing no links), run `processBatch` on the extracted links
against the updated visited set, merge the products, enqueue the crawl
candidates only while `visited.size <= maxDepth * 100`, and run the
periodic flush when `productUrls.size` is a positive multiple of 50
(`flushOk` says whether that database call succeeds; its failure is
caught and logged). -/
def crawlStep (web : String → Option (List String))
    (pages : String → Option RenderedPage) (baseUrl : String) (domainId : Nat)
    (flushOk : Nat → Bool) (s : CrawlState) : CrawlState :=
  let batch := s.pending.take batchSize
  let visited1 := batch.foldl setAdd s.visited
  let r := processBatch (batchLinks web batch) baseUrl visited1 pages
  let products1 := r.productUrls.foldl setAdd s.products
  let pending1 :=
    if visited1.length ≤ maxDepth * 100 then
      r.crawlUrls.foldl setAdd (s.pending.drop batchSize)
    else
      s.pending.drop batchSize
  let doFlush := decide (0 < products1.length) && decide (products1.length % 50 = 0)
  { visited := visited1
    products := products1
    pending := pending1
    storage :=
      if doFlush then
        (if flushOk s.flushCount then flushRows s.storage products1 domainId else s.storage)
      else s.storage
    flushCount := if doFlush then s.flushCount + 1 else s.flushCount
    expanded := s.expanded ++ batch }

/-- The `crawlDomain` loop, fuelled: stop when the frontier is empty
(or the fuel runs out; every claim is stated for arbitrary fuel, i.e. at
every prefix of the run). -/
def crawlRun (web : String → Option (List String))
    (pages : String → Option RenderedPage) (baseUrl : String) (domainId : Nat)
    (flushOk : Nat → Bool) : Nat → CrawlState → CrawlState
  | 0, s => s
  | Nat.succ n, s =>
    if s.pending.isEmpty then s
    else crawlRun web pages baseUrl domainId flushOk n
      (crawlStep web pages baseUrl domainId flushOk s)

/-- The initial state of `crawlDomain`: empty sets, frontier seeded with
`baseUrl`, empty storage. -/
def initCrawl (baseUrl : String) : CrawlState :=
  { visited := [], products := [], pending := [baseUrl], storage := [],
    flushCount := 0, expanded := [] }

/-- The state of an `oldCrawlDomain` run (`src/services/oldcrawler.js`):
`visited` and `productUrls` sets, the FIFO `queue` of
`{url, depth}` entries, the `product_urls` rows, and a ghost trace
`expanded` of the `(url, depth)` entries actually fetched. -/
structure OldState where
  visited : List String
  products : List String
  queue : List (String × Nat)
  storage : List (String × Nat)
  expanded : List (String × Nat)
deriving Repr, DecidableEq

/-- `insertProductUrl` from `src/services/oldcrawler.js`: single-row
`INSERT … ON CONFLICT (url) DO NOTHING`. -/
def oldInsertProductUrl (storage : List (String × Nat)) (u : String) (domainId : Nat) :
    List (String × Nat) :=
  if u ∈ storage.map Prod.fst then storage else storage ++ [(u, domainId)]

/-- The body of the `for (const href of rawLinks)` loop of
`oldCrawlDomain`, processing one extracted link of a page dequeued at
`depth`: skip out-of-domain and already-known links; a
`config.productPatterns` match is recorded as a product and marked
visited immediately; otherwise the playwright verdict decides
(`oracle href = none` models the check throwing, which is caught and
logged): `some true` records a product (marked visited, inserted),
`some false` enqueues `{url: href, depth: depth + 1}`. -/
def oldProcessLink (baseUrl : String) (oracle : String → Option Bool) (domainId : Nat)
    (depth : Nat) (s : OldState) (href : String) : OldState :=
  if !(isUrlInDomain href baseUrl) then s
  else if href ∈ s.products ∨ href ∈ s.visited then s
  else if configProductPatterns href then
    { s with products := setAdd s.products href
             visited := setAdd s.visited href
             storage := oldInsertProductUrl s.storage href domainId }
  else
    match oracle href with
    | some true =>
      { s with products := setAdd s.products href
               visited := setAdd s.visited href
               storage := oldInsertProductUrl s.storage href domainId }
    | some false => { s with queue := s.queue ++ [(href, depth + 1)] }
    | none => s

/-- The `while (queue.length > 0)` loop of `oldCrawlDomain`, fuelled:
dequeue `{url, depth}`; skip it when `depth > config.maxDepth` or it is
already visited; otherwise mark it visited, fetch it (a failure is
caught and contributes nothing), drop extracted links that are already
visited at extraction time (line 75), and process the remaining links in
order. -/
def oldCrawlRun (web : String → Option (List String)) (oracle : String → Option Bool)
    (baseUrl : String) (domainId : Nat) : Nat → OldState → OldState
  | 0, s => s
  | Nat.succ n, s =>
    match s.queue with
    | [] => s
    | (url, depth) :: rest =>
      let s1 : OldState := { s with queue := rest }
      if maxDepth < depth ∨ url ∈ s1.visited then
        oldCrawlRun web oracle baseUrl domainId n s1
      else
        let s2 : OldState :=
          { s1 with visited := setAdd s1.visited url
                    expanded := s1.expanded ++ [(url, depth)] }
        match web url with
        | none => oldCrawlRun web oracle baseUrl domainId n s2
        | some links =>
          let raw := links.filter (fun h => !decide (h ∈ s2.visited))
          oldCrawlRun web oracle baseUrl domainId n
            (raw.foldl (oldProcessLink baseUrl oracle domainId depth) s2)

/-- The initial state of `oldCrawlDomain`: `queue = [{url: baseUrl,
depth: 0}]`. -/
def initOld (baseUrl : String) : OldState :=
  { visited := [], products := [], queue := [(baseUrl, 0)], storage := [], expanded := [] }

/-! ### Basic lemmas about the set model and `processBatch` -/

theorem mem_setAdd {s : List String} {u v : String} :
    v ∈ setAdd s u ↔ v ∈ s ∨ v = u := by
  unfold setAdd
  by_cases h : u ∈ s
  · simp only [if_pos h]
    exact ⟨Or.inl, fun hv => hv.elim id (fun e => e ▸ h)⟩
  · simp [if_neg h]

theorem mem_foldl_setAdd (l : List String) (s : List String) (v : String) :
    v ∈ l.foldl setAdd s ↔ v ∈ s ∨ v ∈ l := by
  induction l generalizing s with
  | nil => simp
  | cons u rest ih => simp [List.foldl_cons, ih, mem_setAdd, or_assoc]

theorem mem_batchFiltered {urls : List String} {b : String} {visited : List String}
    {u : String} :
    u ∈ batchFiltered urls b visited ↔
      u ∈ urls ∧ isUrlInDomain u b = true ∧ u ∉ visited := by
  simp [batchFiltered, List.mem_filter, and_assoc]

theorem mem_batchNeedCheck {urls : List String} {b : String} {visited : List String}
    {u : String} :
    u ∈ batchNeedCheck urls b visited ↔
      u ∈ batchFiltered urls b visited ∧ isLikelyProductByPattern u = false := by
  simp [batchNeedCheck, List.mem_filter]

theorem mem_processBatch_products {urls : List String} {b : String} {visited : List String}
    {pages : String → Option RenderedPage} {u : String} :
    u ∈ (processBatch urls b visited pages).productUrls ↔
      (u ∈ batchFiltered urls b visited ∧ isLikelyProductByPattern u = true) ∨
      (u ∈ batchNeedCheck urls b visited ∧ isProductPageOptimized u (pages u) = true) := by
  simp [processBatch, checkMultipleUrls, List.mem_append, List.mem_filter, List.mem_map]
  constructor
  · rintro (h | ⟨a, ha, rfl, hv⟩)
    · exact Or.inl h
    · exact Or.inr ⟨ha, hv⟩
  · rintro (h | ⟨ha, hv⟩)
    · exact Or.inl h
    · exact Or.inr ⟨u, ha, rfl, hv⟩

theorem mem_processBatch_crawlUrls_aux {urls : List String} {b : String}
    {visited : List String} {pages : String → Option RenderedPage} {u : String} :
    u ∈ (processBatch urls b visited pages).crawlUrls ↔
      u ∈ batchFiltered urls b visited ∧
        u ∉ (processBatch urls b visited pages).productUrls := by
  show u ∈ (batchFiltered urls b visited).filter
      (fun v => !decide (v ∈ (processBatch urls b visited pages).productUrls)) ↔ _
  simp [List.mem_filter]

theorem mem_processBatch_crawlUrls {urls : List String} {b : String}
    {visited : List String} {pages : String → Option RenderedPage} {u : String} :
    u ∈ (processBatch urls b visited pages).crawlUrls ↔
      u ∈ batchFiltered urls b visited ∧ isLikelyProductByPattern u = false ∧
        isProductPageOptimized u (pages u) = false := by
  rw [mem_processBatch_crawlUrls_aux, mem_processBatch_products]
  constructor
  · rintro ⟨hf, hn⟩
    refine ⟨hf, ?_, ?_⟩
    · cases hp : isLikelyProductByPattern u
      · rfl
      · exact absurd (Or.inl ⟨hf, hp⟩) hn
    · cases hv : isProductPageOptimized u (pages u)
      · rfl
      · cases hp : isLikelyProductByPattern u
        · exact absurd (Or.inr ⟨mem_batchNeedCheck.mpr ⟨hf, hp⟩, hv⟩) hn
        · exact absurd (Or.inl ⟨hf, hp⟩) hn
  · rintro ⟨hf, hp, hv⟩
    refine ⟨hf, ?_⟩
    rintro (⟨-, hp'⟩ | ⟨-, hv'⟩)
    · simp [hp] at hp'
    · simp [hv] at hv'

theorem mem_processBatch_products_filtered {urls : List String} {b : String}
    {visited : List String} {pages : String → Option RenderedPage} {u : String}
    (h : u ∈ (processBatch urls b visited pages).productUrls) :
    u ∈ batchFiltered urls b visited := by
  rcases mem_processBatch_products.mp h with ⟨hf, -⟩ | ⟨hn, -⟩
  · exact hf
  · exact (mem_batchNeedCheck.mp hn).1

/-! ### Concrete pages and inputs used by scenario theorems and witnesses -/

/-- All structural indicators absent. -/
def noSignals : ProductIndicators :=
  { hasTitle := false, hasPrice := false, hasAddToCart := false, hasOptions := false,
    hasProductImages := false, hasBreadcrumbs := false, hasDescription := false,
    hasReviews := false, hasRelatedProducts := false }

/-- The negative scenario page of the spec: only a title element and a
description block, no price, no add-to-cart, no metadata signals. -/
def titleDescPage : RenderedPage :=
  { ogType := none, ogTitle := none, hasProductPriceMeta := false,
    hasItemPropPrice := false, hasSchemaProduct := false, hasMicrodataProduct := false,
    indicators := { noSignals with hasTitle := true, hasDescription := true } }

/-- The positive scenario page of the spec: an add-to-cart control, a
title element and a price element, nothing else. -/
def cartTitlePricePage : RenderedPage :=
  { ogType := none, ogTitle := none, hasProductPriceMeta := false,
    hasItemPropPrice := false, hasSchemaProduct := false, hasMicrodataProduct := false,
    indicators := { noSignals with hasTitle := true, hasPrice := true, hasAddToCart := true } }

/-- A page whose only signal is a schema.org JSON-LD `@type: "Product"`
block. -/
def schemaOnlyPage : RenderedPage :=
  { ogType := none, ogTitle := none, hasProductPriceMeta := false,
    hasItemPropPrice := false, hasSchemaProduct := true, hasMicrodataProduct := false,
    indicators := noSignals }

/-- The link batch of the spec's seed scenario:
`[/about, /product/42, /cat/shoes]` resolved against
`https://shop.example/`. -/
def scenarioLinks : List String :=
  ["https://shop.example/about", "https://shop.example/product/42",
   "https://shop.example/cat/shoes"]

/-! ### C6 — domain matching -/

/-- C6: `isUrlInDomain url t` returns `true` iff both URLs have a
hostname and url's lower-cased hostname equals t's lower-cased hostname
or ends with `"."` followed by it; for a malformed `url` (no hostname)
it returns `false` instead of raising. -/
theorem isUrlInDomain_spec (url t : String) :
    (isUrlInDomain url t = true ↔
      ∃ uh th, urlHostname url = some uh ∧ urlHostname t = some th ∧
        (strLower uh = strLower th ∨
          strEndsWith (strLower uh) ("." ++ strLower th) = true)) ∧
    (urlHostname url = none → isUrlInDomain url t = false) := by
  unfold isUrlInDomain
  cases h1 : urlHostname url <;> cases h2 : urlHostname t <;> simp [h1, h2]

/-- Witness for C6: a strict subdomain URL matches its target domain. -/
theorem isUrlInDomain_spec_witness :
    isUrlInDomain "https://a.shop.com/x" "https://shop.com/" = true :=
  (isUrlInDomain_spec "https://a.shop.com/x" "https://shop.com/").1.mpr
    ⟨"a.shop.com", "shop.com", by decide, by decide, Or.inr (by decide)⟩

/-! ### C5 — pattern fast-path precedence in `processBatch` -/

/-- C5: within a processed batch of discovered links, a filtered URL the
pattern classifier matches is in the returned product list and is not in
the list submitted to the render-based check; the render-checked list is
exactly the filtered URLs the pattern classifier does not match; and the
crawl candidates returned for enqueueing are exactly the render-checked
URLs whose content classification is negative. -/
theorem processBatch_pattern_precedence (urls : List String) (b : String)
    (visited : List String) (pages : String → Option RenderedPage) (u : String) :
    (u ∈ batchFiltered urls b visited → isLikelyProductByPattern u = true →
      u ∈ (processBatch urls b visited pages).productUrls ∧
        u ∉ batchNeedCheck urls b visited) ∧
    (u ∈ batchNeedCheck urls b visited ↔
      u ∈ batchFiltered urls b visited ∧ isLikelyProductByPattern u = false) ∧
    (u ∈ (processBatch urls b visited pages).crawlUrls ↔
      u ∈ batchFiltered urls b visited ∧ isLikelyProductByPattern u = false ∧
        isProductPageOptimized u (pages u) = false) := by
  refine ⟨?_, mem_batchNeedCheck, mem_processBatch_crawlUrls⟩
  intro hf hp
  refine ⟨mem_processBatch_products.mpr (Or.inl ⟨hf, hp⟩), ?_⟩
  rw [mem_batchNeedCheck]
  rintro ⟨-, hp'⟩
  simp [hp] at hp'

/-- Witness for C5, on the spec's seed scenario: `/product/42` is
pattern-matched, lands in the product list and is never render-checked;
`/about` is a crawl candidate. -/
theorem processBatch_pattern_precedence_witness :
    ("https://shop.example/product/42" ∈
        (processBatch scenarioLinks "https://shop.example/" ["https://shop.example/"]
          (fun _ => none)).productUrls ∧
      "https://shop.example/product/42" ∉
        batchNeedCheck scenarioLinks "https://shop.example/" ["https://shop.example/"]) ∧
    "https://shop.example/about" ∈
      (processBatch scenarioLinks "https://shop.example/" ["https://shop.example/"]
        (fun _ => none)).crawlUrls :=
  ⟨(processBatch_pattern_precedence scenarioLinks "https://shop.example/"
      ["https://shop.example/"] (fun _ => none) "https://shop.example/product/42").1
      (by decide) (by decide),
   (processBatch_pattern_precedence scenarioLinks "https://shop.example/"
      ["https://shop.example/"] (fun _ => none) "https://shop.example/about").2.2.mpr
      ⟨by decide, by decide, by decide⟩⟩

/-! ### C3 — weighted structural stage scenarios -/

/-- C3: with no strong metadata signal, a rendered page with an
add-to-cart control, a title element and a price element accumulates a
confidence score of at least the threshold 7 and classifies as a
product; a page with only a title element and a description block, whose
URL has no product path segment and no product-id query parameter,
scores below 7 and classifies as not a product. -/
theorem structural_stage_scenarios :
    (∀ (url : String) (pg : RenderedPage),
      pg.hasSchemaProduct = false → (metaChecksOf pg).isOgProduct = false →
      pg.hasMicrodataProduct = false →
      pg.indicators.hasAddToCart = true → pg.indicators.hasTitle = true →
      pg.indicators.hasPrice = true →
      7 ≤ confidenceScore url (metaChecksOf pg) pg.indicators ∧
        isProductPageOptimized url (some pg) = true) ∧
    (∀ url : String, hasProductUrlPattern url = false → hasProductIdParam url = false →
      confidenceScore url (metaChecksOf titleDescPage) titleDescPage.indicators < 7 ∧
        isProductPageOptimized url (some titleDescPage) = false) := by
  constructor
  · intro url pg h1 h2 h3 h4 h5 h6
    have hs : 7 ≤ confidenceScore url (metaChecksOf pg) pg.indicators := by
      unfold confidenceScore
      simp only [h4, h5, h6, if_true]
      omega
    refine ⟨hs, ?_⟩
    have hm1 : (metaChecksOf pg).hasSchemaProduct = false := by simp [metaChecksOf, h1]
    have hm3 : (metaChecksOf pg).hasMicrodata = false := by simp [metaChecksOf, h3]
    unfold isProductPageOptimized
    simp [hm1, h2, hm3, hs]
  · intro url h1 h2
    refine ⟨?_, ?_⟩
    · unfold confidenceScore
      simp [h1, h2, titleDescPage, noSignals, metaChecksOf]
    · unfold isProductPageOptimized
      simp [titleDescPage, noSignals, metaChecksOf, confidenceScore, h1, h2]

/-- Witness for C3 at the two concrete scenario pages. -/
theorem structural_stage_scenarios_witness :
    (7 ≤ confidenceScore "https://shop.example/x" (metaChecksOf cartTitlePricePage)
        cartTitlePricePage.indicators ∧
      isProductPageOptimized "https://shop.example/x" (some cartTitlePricePage) = true) ∧
    (confidenceScore "https://shop.example/about" (metaChecksOf titleDescPage)
        titleDescPage.indicators < 7 ∧
      isProductPageOptimized "https://shop.example/about" (some titleDescPage) = false) :=
  ⟨structural_stage_scenarios.1 "https://shop.example/x" cartTitlePricePage
      rfl (by decide) rfl rfl rfl rfl,
   structural_stage_scenarios.2 "https://shop.example/about" (by decide) (by decide)⟩

/-! ### C4 — strong metadata signals dominate -/

/-- C4: a strong metadata signal — a JSON-LD structured-data block of
`@type` Product, explicit product microdata, or an Open Graph type whose
value contains "product" — makes the content classifier return `true`
immediately, whatever the structural indicators are; with no strong
signal present, the result is exactly the weighted structural stage's
threshold decision. -/
theorem strong_signal_dominates :
    (∀ (url : String) (pg : RenderedPage),
      (pg.hasSchemaProduct = true ∨ pg.hasMicrodataProduct = true ∨
        (∃ ot, pg.ogType = some ot ∧ strContains (strLower ot) "product" = true)) →
      isProductPageOptimized url (some pg) = true) ∧
    (∀ (url : String) (pg : RenderedPage),
      (metaChecksOf pg).hasSchemaProduct = false → (metaChecksOf pg).isOgProduct = false →
      (metaChecksOf pg).hasMicrodata = false →
      isProductPageOptimized url (some pg) =
        decide (7 ≤ confidenceScore url (metaChecksOf pg) pg.indicators)) := by
  constructor
  · intro url pg h
    unfold isProductPageOptimized
    rcases h with h | h | ⟨ot, hot, hp⟩
    · simp [metaChecksOf, h]
    · simp [metaChecksOf, h]
    · simp [metaChecksOf, hot, hp]
  · intro url pg h1 h2 h3
    unfold isProductPageOptimized
    simp [h1, h2, h3]

/-- Witness for C4: a page whose only signal is a structured-data
Product block classifies as a product, although its structural score is
zero. -/
theorem strong_signal_dominates_witness :
    isProductPageOptimized "https://shop.example/about" (some schemaOnlyPage) = true :=
  strong_signal_dominates.1 "https://shop.example/about" schemaOnlyPage (Or.inl rfl)

/-! ### C8 — classification failures are conservative and local -/

/-- C8: a URL whose page cannot be loaded or evaluated (a failed render,
including any error during classification) receives the verdict `false`,
and every URL of a batch receives its own verdict in the
`checkMultipleUrls` result — one failure never removes other URLs'
verdicts. -/
theorem classify_failure_conservative :
    (∀ url : String, isProductPageOptimized url none = false) ∧
    (∀ (pages : String → Option RenderedPage) (urls : List String) (u : String),
      u ∈ urls → (u, isProductPageOptimized u (pages u)) ∈ checkMultipleUrls pages urls) := by
  constructor
  · intro url
    rfl
  · intro pages urls u hu
    unfold checkMultipleUrls
    exact List.mem_map_of_mem _ hu

/-- Witness for C8: in a batch where every render fails, a URL still
receives its (negative) verdict. -/
theorem classify_failure_conservative_witness :
    isProductPageOptimized "https://shop.example/a" none = false ∧
    ("https://shop.example/a", false) ∈
      checkMultipleUrls (fun _ => none)
        ["https://shop.example/a", "https://shop.example/b"] := by
  constructor
  · exact classify_failure_conservative.1 "https://shop.example/a"
  · have h := classify_failure_conservative.2 (fun _ => none)
      ["https://shop.example/a", "https://shop.example/b"] "https://shop.example/a"
      (by decide)
    simpa using h

/-! ### Lemmas about the batch-crawler loop -/

theorem crawlRun_zero (web : String → Option (List String))
    (pages : String → Option RenderedPage) (b : String) (dId : Nat) (fo : Nat → Bool)
    (s : CrawlState) : crawlRun web pages b dId fo 0 s = s := rfl

theorem crawlRun_succ (web : String → Option (List String))
    (pages : String → Option RenderedPage) (b : String) (dId : Nat) (fo : Nat → Bool)
    (n : Nat) (s : CrawlState) :
    crawlRun web pages b dId fo (n + 1) s =
      if s.pending.isEmpty then s
      else crawlRun web pages b dId fo n (crawlStep web pages b dId fo s) := rfl

theorem crawlStep_visited (web : String → Option (List String))
    (pages : String → Option RenderedPage) (b : String) (dId : Nat) (fo : Nat → Bool)
    (s : CrawlState) :
    (crawlStep web pages b dId fo s).visited =
      (s.pending.take batchSize).foldl setAdd s.visited := rfl

theorem crawlStep_products (web : String → Option (List String))
    (pages : String → Option RenderedPage) (b : String) (dId : Nat) (fo : Nat → Bool)
    (s : CrawlState) :
    (crawlStep web pages b dId fo s).products =
      (processBatch (batchLinks web (s.pending.take batchSize)) b
        ((s.pending.take batchSize).foldl setAdd s.visited) pages).productUrls.foldl
        setAdd s.products := rfl

theorem crawlStep_pending (web : String → Option (List String))
    (pages : String → Option RenderedPage) (b : String) (dId : Nat) (fo : Nat → Bool)
    (s : CrawlState) :
    (crawlStep web pages b dId fo s).pending =
      if ((s.pending.take batchSize).foldl setAdd s.visited).length ≤ maxDepth * 100 then
        (processBatch (batchLinks web (s.pending.take batchSize)) b
          ((s.pending.take batchSize).foldl setAdd s.visited) pages).crawlUrls.foldl
          setAdd (s.pending.drop batchSize)
      else s.pending.drop batchSize := rfl

theorem crawlStep_expanded (web : String → Option (List String))
    (pages : String → Option RenderedPage) (b : String) (dId : Nat) (fo : Nat → Bool)
    (s : CrawlState) :
    (crawlStep web pages b dId fo s).expanded = s.expanded ++ s.pending.take batchSize := rfl

theorem visited_subset_crawlStep {web : String → Option (List String)}
    {pages : String → Option RenderedPage} {b : String} {dId : Nat} {fo : Nat → Bool}
    {s : CrawlState} {u : String} (h : u ∈ s.visited) :
    u ∈ (crawlStep web pages b dId fo s).visited := by
  rw [crawlStep_visited]
  exact (mem_foldl_setAdd _ _ _).mpr (Or.inl h)

theorem mem_crawlStep_products {web : String → Option (List String)}
    {pages : String → Option RenderedPage} {b : String} {dId : Nat} {fo : Nat → Bool}
    {s : CrawlState} {u : String} (h : u ∈ (crawlStep web pages b dId fo s).products) :
    u ∈ s.products ∨ u ∉ (crawlStep web pages b dId fo s).visited := by
  rw [crawlStep_products] at h
  rw [crawlStep_visited]
  rcases (mem_foldl_setAdd _ _ _).mp h with h | h
  · exact Or.inl h
  · exact Or.inr (mem_batchFiltered.mp (mem_processBatch_products_filtered h)).2.2

theorem mem_crawlStep_pending {web : String → Option (List String)}
    {pages : String → Option RenderedPage} {b : String} {dId : Nat} {fo : Nat → Bool}
    {s : CrawlState} {u : String} (h : u ∈ (crawlStep web pages b dId fo s).pending) :
    u ∈ s.pending.drop batchSize ∨
      u ∈ (processBatch (batchLinks web (s.pending.take batchSize)) b
        ((s.pending.take batchSize).foldl setAdd s.visited) pages).crawlUrls := by
  rw [crawlStep_pending] at h
  by_cases hc : ((s.pending.take batchSize).foldl setAdd s.visited).length ≤ maxDepth * 100
  · rw [if_pos hc] at h
    rcases (mem_foldl_setAdd _ _ _).mp h with h | h
    · exact Or.inl h
    · exact Or.inr h
  · rw [if_neg hc] at h
    exact Or.inl h

theorem crawlStep_keeps_done {web : String → Option (List String)}
    {pages : String → Option RenderedPage} {b : String} {dId : Nat} {fo : Nat → Bool}
    {s : CrawlState} {u : String} (h1 : u ∈ s.visited) (h2 : u ∉ s.pending) :
    u ∈ (crawlStep web pages b dId fo s).visited ∧
      u ∉ (crawlStep web pages b dId fo s).pending := by
  refine ⟨visited_subset_crawlStep h1, ?_⟩
  intro hc
  rcases mem_crawlStep_pending hc with hd | hcw
  · exact h2 (List.drop_subset _ _ hd)
  · exact (mem_batchFiltered.mp (mem_processBatch_crawlUrls.mp hcw).1).2.2
      ((mem_foldl_setAdd _ _ _).mpr (Or.inl h1))

theorem crawlRun_expanded_count (web : String → Option (List String))
    (pages : String → Option RenderedPage) (b : String) (dId : Nat) (fo : Nat → Bool)
    (u : String) :
    ∀ (n : Nat) (s : CrawlState), u ∈ s.visited → u ∉ s.pending →
      (crawlRun web pages b dId fo n s).expanded.count u = s.expanded.count u := by
  intro n
  induction n with
  | zero =>
    intro s _ _
    rfl
  | succ m ih =>
    intro s h1 h2
    rw [crawlRun_succ]
    cases hp : s.pending.isEmpty
    · simp only [Bool.false_eq_true, if_false]
      obtain ⟨hv, hpend⟩ := @crawlStep_keeps_done web pages b dId fo s u h1 h2
      rw [ih _ hv hpend, crawlStep_expanded, List.count_append]
      have hz : (s.pending.take batchSize).count u = 0 :=
        List.count_eq_zero.mpr (fun hc => h2 (List.take_subset _ _ hc))
      omega
    · simp only [if_true]

theorem batchLinks_successful (web : String → Option (List String)) :
    ∀ l : List String,
      batchLinks web l = batchLinks web (l.filter (fun v => (web v).isSome)) := by
  intro l
  induction l with
  | nil => rfl
  | cons v rest ih =>
    cases hv : web v with
    | none => simp [batchLinks, hv, ih]
    | some ls => simp [batchLinks, hv, ih]

/-! ### C10 — the seed URL never enters the product set -/

theorem crawlRun_seed_invariant (web : String → Option (List String))
    (pages : String → Option RenderedPage) (b : String) (dId : Nat) (fo : Nat → Bool) :
    ∀ (fuel : Nat) (s : CrawlState), b ∈ s.visited → b ∉ s.products →
      b ∉ (crawlRun web pages b dId fo fuel s).products := by
  intro fuel
  induction fuel with
  | zero =>
    intro s _ h2
    exact h2
  | succ n ih =>
    intro s h1 h2
    rw [crawlRun_succ]
    cases hp : s.pending.isEmpty
    · simp only [Bool.false_eq_true, if_false]
      refine ih _ (visited_subset_crawlStep h1) ?_
      intro hc
      rcases mem_crawlStep_products hc with hc | hc
      · exact h2 hc
      · exact hc (visited_subset_crawlStep h1)
    · simp only [if_true]
      exact h2

/-- C10: for every crawl run of the batch crawler, the returned product
set never contains the seed URL itself — even when the seed matches the
product URL patterns — because the seed is marked visited before any
link is classified and products are drawn only from unvisited links. -/
theorem seed_never_in_products (web : String → Option (List String))
    (pages : String → Option RenderedPage) (b : String) (dId : Nat) (fo : Nat → Bool)
    (fuel : Nat) :
    decide (b ∈ (crawlRun web pages b dId fo fuel (initCrawl b)).products) = false := by
  rw [decide_eq_false_iff_not]
  cases fuel with
  | zero => simp [crawlRun_zero, initCrawl]
  | succ n =>
    rw [crawlRun_succ]
    simp only [initCrawl, List.isEmpty_cons, if_false, Bool.false_eq_true]
    have hseed : b ∈ (crawlStep web pages b dId fo (initCrawl b)).visited := by
      rw [crawlStep_visited]
      exact (mem_foldl_setAdd _ _ _).mpr (Or.inr (by simp [initCrawl, batchSize]))
    refine crawlRun_seed_invariant web pages b dId fo n _ hseed ?_
    intro hc
    rcases mem_crawlStep_products hc with hc | hc
    · simp [initCrawl] at hc
    · exact hc hseed

/-! ### C7 — fetch failures are local and final -/

/-- C7: when the fetch of a batched URL fails (`web u = none`): its
fetch result carries `success = false`; the URL is still marked visited
by the step and leaves the frontier for good — the count of its
appearances in the dispatch trace never grows in any continuation of the
run, i.e. it is never re-fetched; the batch's extracted links are
exactly those contributed by the successful fetches; and the run
continues on the successor state (the step and the continued run are
total — the caught error never propagates). -/
theorem fetch_failure_handling (web : String → Option (List String))
    (pages : String → Option RenderedPage) (b : String) (dId : Nat) (fo : Nat → Bool)
    (s : CrawlState) (u : String) (hnd : s.pending.Nodup)
    (hu : u ∈ s.pending.take batchSize) (hw : web u = none) :
    fetchSuccess web u = false ∧
    u ∈ (crawlStep web pages b dId fo s).visited ∧
    u ∉ (crawlStep web pages b dId fo s).pending ∧
    batchLinks web (s.pending.take batchSize) =
      batchLinks web ((s.pending.take batchSize).filter (fun v => (web v).isSome)) ∧
    (∀ n : Nat,
      (crawlRun web pages b dId fo n (crawlStep web pages b dId fo s)).expanded.count u =
        (crawlStep web pages b dId fo s).expanded.count u) := by
  have hv1 : u ∈ (crawlStep web pages b dId fo s).visited := by
    rw [crawlStep_visited]
    exact (mem_foldl_setAdd _ _ _).mpr (Or.inr hu)
  have hnp : u ∉ (crawlStep web pages b dId fo s).pending := by
    intro hc
    rcases mem_crawlStep_pending hc with hd | hcw
    · have hnd2 : (s.pending.take batchSize ++ s.pending.drop batchSize).Nodup := by
        rw [List.take_append_drop]
        exact hnd
      exact (List.disjoint_of_nodup_append hnd2) hu hd
    · exact (mem_batchFiltered.mp (mem_processBatch_crawlUrls.mp hcw).1).2.2
        ((mem_foldl_setAdd _ _ _).mpr (Or.inr hu))
  refine ⟨?_, hv1, hnp, batchLinks_successful web _, ?_⟩
  · unfold fetchSuccess
    rw [hw]
    rfl
  · intro n
    exact crawlRun_expanded_count web pages b dId fo u n _ hv1 hnp

/-- A web where every fetch fails. -/
def failWeb : String → Option (List String) := fun _ => none

/-- Witness for C7: the seed's fetch fails; it is visited, off the
frontier, contributes no links, and is never dispatched again. -/
theorem fetch_failure_handling_witness :
    fetchSuccess failWeb "https://shop.example/" = false ∧
    "https://shop.example/" ∈ (crawlStep failWeb (fun _ => none) "https://shop.example/" 1
      (fun _ => true) (initCrawl "https://shop.example/")).visited ∧
    "https://shop.example/" ∉ (crawlStep failWeb (fun _ => none) "https://shop.example/" 1
      (fun _ => true) (initCrawl "https://shop.example/")).pending ∧
    batchLinks failWeb ((initCrawl "https://shop.example/").pending.take batchSize) =
      batchLinks failWeb (((initCrawl "https://shop.example/").pending.take batchSize).filter
        (fun v => (failWeb v).isSome)) ∧
    (crawlRun failWeb (fun _ => none) "https://shop.example/" 1 (fun _ => true) 4
        (crawlStep failWeb (fun _ => none) "https://shop.example/" 1 (fun _ => true)
          (initCrawl "https://shop.example/"))).expanded.count "https://shop.example/" =
      (crawlStep failWeb (fun _ => none) "https://shop.example/" 1 (fun _ => true)
        (initCrawl "https://shop.example/")).expanded.count "https://shop.example/" := by
  have h := fetch_failure_handling failWeb (fun _ => none) "https://shop.example/" 1
    (fun _ => true) (initCrawl "https://shop.example/") "https://shop.example/"
    (by decide) (by decide) rfl
  exact ⟨h.1, h.2.1, h.2.2.1, h.2.2.2.1, h.2.2.2.2 4⟩

/-! ### Lemmas about the old crawler -/

theorem oldProcessLink_inv {b : String} {oracle : String → Option Bool} {dId d : Nat}
    {s : OldState} {h : String}
    (hinv : ∀ x ∈ s.products, x ∈ s.visited) :
    ∀ x ∈ (oldProcessLink b oracle dId d s h).products,
      x ∈ (oldProcessLink b oracle dId d s h).visited := by
  unfold oldProcessLink
  split
  · exact hinv
  · split
    · exact hinv
    · split
      · intro x hx
        rcases mem_setAdd.mp hx with hx | rfl
        · exact mem_setAdd.mpr (Or.inl (hinv x hx))
        · exact mem_setAdd.mpr (Or.inr rfl)
      · split
        · intro x hx
          rcases mem_setAdd.mp hx with hx | rfl
          · exact mem_setAdd.mpr (Or.inl (hinv x hx))
          · exact mem_setAdd.mpr (Or.inr rfl)
        · exact hinv
        · exact hinv

theorem foldl_oldProcessLink_inv {b : String} {oracle : String → Option Bool} {dId d : Nat}
    (links : List String) (s : OldState)
    (hinv : ∀ x ∈ s.products, x ∈ s.visited) :
    ∀ x ∈ (links.foldl (oldProcessLink b oracle dId d) s).products,
      x ∈ (links.foldl (oldProcessLink b oracle dId d) s).visited := by
  induction links generalizing s with
  | nil => exact hinv
  | cons l rest ih => exact ih _ (oldProcessLink_inv hinv)

theorem oldCrawlRun_inv (web : String → Option (List String)) (oracle : String → Option Bool)
    (b : String) (dId : Nat) :
    ∀ (fuel : Nat) (s : OldState), (∀ x ∈ s.products, x ∈ s.visited) →
      ∀ x ∈ (oldCrawlRun web oracle b dId fuel s).products,
        x ∈ (oldCrawlRun web oracle b dId fuel s).visited := by
  intro fuel
  induction fuel with
  | zero =>
    intro s hinv
    exact hinv
  | succ n ih =>
    intro s hinv
    unfold oldCrawlRun
    split
    · exact hinv
    · split
      · dsimp only
        split
        · exact ih _ hinv
        · exact ih _ (fun x hx => mem_setAdd.mpr (Or.inl (hinv x hx)))
      · dsimp only
        split
        · exact ih _ hinv
        · exact ih _ (foldl_oldProcessLink_inv _ _
            (fun x hx => mem_setAdd.mpr (Or.inl (hinv x hx))))

theorem oldProcessLink_expanded (b : String) (oracle : String → Option Bool) (dId d : Nat)
    (s : OldState) (h : String) :
    (oldProcessLink b oracle dId d s h).expanded = s.expanded := by
  unfold oldProcessLink
  split
  · rfl
  · split
    · rfl
    · split
      · rfl
      · split <;> rfl

theorem foldl_oldProcessLink_expanded (b : String) (oracle : String → Option Bool)
    (dId d : Nat) (links : List String) (s : OldState) :
    (links.foldl (oldProcessLink b oracle dId d) s).expanded = s.expanded := by
  induction links generalizing s with
  | nil => rfl
  | cons l rest ih => rw [List.foldl_cons, ih, oldProcessLink_expanded]

theorem oldCrawlRun_expanded_bound (web : String → Option (List String))
    (oracle : String → Option Bool) (b : String) (dId : Nat) :
    ∀ (fuel : Nat) (s : OldState), (∀ e ∈ s.expanded, e.2 ≤ maxDepth) →
      ∀ e ∈ (oldCrawlRun web oracle b dId fuel s).expanded, e.2 ≤ maxDepth := by
  intro fuel
  induction fuel with
  | zero =>
    intro s hinv
    exact hinv
  | succ n ih =>
    intro s hinv
    unfold oldCrawlRun
    split
    · exact hinv
    · rename_i url depth rest heq
      split
      · dsimp only
        split
        · exact ih _ hinv
        · rename_i hguard
          have hd : depth ≤ maxDepth := Nat.le_of_not_lt (fun hlt => hguard (Or.inl hlt))
          refine ih _ ?_
          intro e he
          rcases List.mem_append.mp he with he | he
          · exact hinv e he
          · rw [List.mem_singleton.mp he]
            exact hd
      · dsimp only
        split
        · exact ih _ hinv
        · rename_i hguard
          have hd : depth ≤ maxDepth := Nat.le_of_not_lt (fun hlt => hguard (Or.inl hlt))
          refine ih _ ?_
          rw [foldl_oldProcessLink_expanded]
          intro e he
          rcases List.mem_append.mp he with he | he
          · exact hinv e he
          · rw [List.mem_singleton.mp he]
            exact hd

theorem oldProcessLink_queue (b : String) (oracle : String → Option Bool) (dId d : Nat)
    (s : OldState) (h : String) (e : String × Nat)
    (he : e ∈ (oldProcessLink b oracle dId d s h).queue) :
    e ∈ s.queue ∨ e.2 = d + 1 := by
  unfold oldProcessLink at he
  split at he
  · exact Or.inl he
  · split at he
    · exact Or.inl he
    · split at he
      · exact Or.inl he
      · split at he
        · exact Or.inl he
        · rcases List.mem_append.mp he with he | he
          · exact Or.inl he
          · right
            rw [List.mem_singleton.mp he]
        · exact Or.inl he

/-! ### C1 — `ProductSet ⊆ VisitedSet` -/

/-- The web of the C1 counterexample: the seed page links to a single
pattern-matching product URL, nothing else resolves. -/
def c1web : String → Option (List String) := fun u =>
  if u == "https://shop.example/" then some ["https://shop.example/product/42"] else none

/-- C1 (counterexample): in the batch crawler `crawlDomain`, the URL
`/product/42` — classified by the pattern classifier in the first batch —
ends the run inside ProductSet but outside VisitedSet: `processBatch`
adds product URLs to the product set without ever marking them visited
(only dispatched batch URLs are added to `visited`). -/
theorem batch_products_not_subset_visited :
    decide ("https://shop.example/product/42" ∈
        (crawlRun c1web (fun _ => none) "https://shop.example/" 1 (fun _ => true) 3
          (initCrawl "https://shop.example/")).products) = true ∧
    decide ("https://shop.example/product/42" ∈
        (crawlRun c1web (fun _ => none) "https://shop.example/" 1 (fun _ => true) 3
          (initCrawl "https://shop.example/")).visited) = false := by
  constructor <;> rfl

/-- C1 (amended): in `oldCrawlDomain`, every URL in the product set is
also in the visited set at every point during and after the run — the
old crawler adds a confirmed product URL to `visited` in the same step
that adds it to `productUrls`. -/
theorem old_products_subset_visited (web : String → Option (List String))
    (oracle : String → Option Bool) (b : String) (dId : Nat) (fuel : Nat) (u : String)
    (h : u ∈ (oldCrawlRun web oracle b dId fuel (initOld b)).products) :
    u ∈ (oldCrawlRun web oracle b dId fuel (initOld b)).visited :=
  oldCrawlRun_inv web oracle b dId fuel (initOld b)
    (fun x hx => absurd hx (List.not_mem_nil x)) u h

/-- The web of the old-crawler witnesses: the seed links to a
pattern-matching product URL and a plain page. -/
def oldWeb : String → Option (List String) := fun u =>
  if u == "https://shop.example/" then
    some ["https://shop.example/product/1", "https://shop.example/about"]
  else if u == "https://shop.example/about" then some []
  else none

/-- Witness for the amended C1: the discovered product URL is indeed in
the old crawler's visited set. -/
theorem old_products_subset_visited_witness :
    "https://shop.example/product/1" ∈
      (oldCrawlRun oldWeb (fun _ => some false) "https://shop.example/" 1 5
        (initOld "https://shop.example/")).visited :=
  old_products_subset_visited oldWeb (fun _ => some false) "https://shop.example/" 1 5
    "https://shop.example/product/1" (by decide)

/-! ### C2 — depth discipline -/

/-- The chain web of the C2 counterexample: each page links only to the
next one, so `pageN`'s discovery depth along its unique chain is `N`. -/
def c2web : String → Option (List String) := fun u =>
  if u == "https://shop.example/" then some ["https://shop.example/page1"]
  else if u == "https://shop.example/page1" then some ["https://shop.example/page2"]
  else if u == "https://shop.example/page2" then some ["https://shop.example/page3"]
  else if u == "https://shop.example/page3" then some ["https://shop.example/page4"]
  else if u == "https://shop.example/page4" then some ["https://shop.example/page5"]
  else if u == "https://shop.example/page5" then some []
  else none

/-- C2 (counterexample): the batch crawler `crawlDomain` tracks no
per-entry depth and bounds growth only by `visited.size <= maxDepth *
100`; on the chain web it fetches and link-extracts `page4` and `page5`,
whose discovery depths 4 and 5 exceed `maxDepth = 3`. -/
theorem batch_crawler_expands_past_maxDepth :
    maxDepth = 3 ∧
    c2web "https://shop.example/page3" = some ["https://shop.example/page4"] ∧
    c2web "https://shop.example/page4" = some ["https://shop.example/page5"] ∧
    decide ("https://shop.example/page4" ∈
        (crawlRun c2web (fun _ => none) "https://shop.example/" 1 (fun _ => true) 8
          (initCrawl "https://shop.example/")).expanded) = true ∧
    decide ("https://shop.example/page5" ∈
        (crawlRun c2web (fun _ => none) "https://shop.example/" 1 (fun _ => true) 8
          (initCrawl "https://shop.example/")).expanded) = true := by
  refine ⟨rfl, rfl, rfl, rfl, rfl⟩

/-- C2 (amended): in `oldCrawlDomain`, depth is non-decreasing along
discovery chains — a link processed from a page dequeued at depth `d` is
only ever enqueued at depth `d + 1` — and no entry whose depth exceeds
`maxDepth` is ever expanded (fetched and link-extracted). -/
theorem old_depth_discipline (web : String → Option (List String))
    (oracle : String → Option Bool) (b : String) (dId : Nat) :
    (∀ (d : Nat) (s : OldState) (h : String) (e : String × Nat),
      e ∈ (oldProcessLink b oracle dId d s h).queue → e ∈ s.queue ∨ e.2 = d + 1) ∧
    (∀ (fuel : Nat) (e : String × Nat),
      e ∈ (oldCrawlRun web oracle b dId fuel (initOld b)).expanded → e.2 ≤ maxDepth) := by
  constructor
  · intro d s h e he
    exact oldProcessLink_queue b oracle dId d s h e he
  · intro fuel e he
    exact oldCrawlRun_expanded_bound web oracle b dId fuel (initOld b)
      (fun x hx => absurd hx (List.not_mem_nil x)) e he

/-- Witness for the amended C2: processing the seed's plain link at
depth 0 enqueues it at depth 1, and the dequeued entries of a concrete
old-crawler run all have depth at most `maxDepth`. -/
theorem old_depth_discipline_witness :
    ((("https://shop.example/about", 1) : String × Nat) ∈
        (initOld "https://shop.example/").queue ∨
      (("https://shop.example/about", 1) : String × Nat).2 = 0 + 1) ∧
    (("https://shop.example/", 0) : String × Nat).2 ≤ maxDepth := by
  constructor
  · exact (old_depth_discipline oldWeb (fun _ => some false) "https://shop.example/" 1).1 0
      (initOld "https://shop.example/") "https://shop.example/about"
      ("https://shop.example/about", 1) (by decide)
  · exact (old_depth_discipline oldWeb (fun _ => some false) "https://shop.example/" 1).2 5
      ("https://shop.example/", 0) (by decide)

/-! ### C9 — flush idempotence and failure isolation -/

theorem flushRows_cons (st : List (String × Nat)) (u : String) (rest : List String)
    (dId : Nat) :
    flushRows st (u :: rest) dId =
      flushRows (if u ∈ st.map Prod.fst then st else st ++ [(u, dId)]) rest dId := rfl

theorem flushRows_names_mono (urls : List String) (st : List (String × Nat)) (dId : Nat)
    (x : String) (h : x ∈ st.map Prod.fst) :
    x ∈ (flushRows st urls dId).map Prod.fst := by
  induction urls generalizing st with
  | nil => exact h
  | cons u rest ih =>
    rw [flushRows_cons]
    apply ih
    by_cases hc : u ∈ st.map Prod.fst
    · rwa [if_pos hc]
    · rw [if_neg hc, List.map_append, List.mem_append]
      exact Or.inl h

theorem flushRows_mem (urls : List String) (st : List (String × Nat)) (dId : Nat)
    (u : String) (h : u ∈ urls) :
    u ∈ (flushRows st urls dId).map Prod.fst := by
  induction urls generalizing st with
  | nil => cases h
  | cons v rest ih =>
    rw [flushRows_cons]
    rcases List.mem_cons.mp h with rfl | h
    · apply flushRows_names_mono
      by_cases hc : u ∈ st.map Prod.fst
      · rwa [if_pos hc]
      · rw [if_neg hc, List.map_append]
        simp
    · exact ih (if v ∈ st.map Prod.fst then st else st ++ [(v, dId)]) h

theorem flushRows_noop (urls : List String) (st : List (String × Nat)) (dId : Nat)
    (h : ∀ u ∈ urls, u ∈ st.map Prod.fst) : flushRows st urls dId = st := by
  induction urls generalizing st with
  | nil => rfl
  | cons v rest ih =>
    rw [flushRows_cons, if_pos (h v (List.mem_cons_self v rest))]
    exact ih st (fun u hu => h u (List.mem_cons_of_mem _ hu))

theorem flushRows_idem (st : List (String × Nat)) (urls : List String) (dId : Nat) :
    flushRows (flushRows st urls dId) urls dId = flushRows st urls dId :=
  flushRows_noop urls _ dId (fun u hu => flushRows_mem urls st dId u hu)

theorem flushRows_nodup (urls : List String) (st : List (String × Nat)) (dId : Nat)
    (h : (st.map Prod.fst).Nodup) : ((flushRows st urls dId).map Prod.fst).Nodup := by
  induction urls generalizing st with
  | nil => exact h
  | cons v rest ih =>
    rw [flushRows_cons]
    by_cases hc : v ∈ st.map Prod.fst
    · rw [if_pos hc]
      exact ih _ h
    · rw [if_neg hc]
      apply ih
      rw [List.map_append]
      simp [List.nodup_append, h, hc]

theorem flushRows_count (st : List (String × Nat)) (urls : List String) (dId : Nat)
    (h : (st.map Prod.fst).Nodup) (u : String) (hu : u ∈ urls) :
    ((flushRows st urls dId).map Prod.fst).count u = 1 :=
  List.count_eq_one_of_mem (flushRows_nodup urls st dId h) (flushRows_mem urls st dId u hu)

theorem crawlStep_agree (web : String → Option (List String))
    (pages : String → Option RenderedPage) (b : String) (dId : Nat)
    (fo1 fo2 : Nat → Bool) (s t : CrawlState)
    (hv : s.visited = t.visited) (hp : s.products = t.products)
    (hq : s.pending = t.pending) (he : s.expanded = t.expanded)
    (hf : s.flushCount = t.flushCount) :
    (crawlStep web pages b dId fo1 s).visited = (crawlStep web pages b dId fo2 t).visited ∧
    (crawlStep web pages b dId fo1 s).products = (crawlStep web pages b dId fo2 t).products ∧
    (crawlStep web pages b dId fo1 s).pending = (crawlStep web pages b dId fo2 t).pending ∧
    (crawlStep web pages b dId fo1 s).expanded = (crawlStep web pages b dId fo2 t).expanded ∧
    (crawlStep web pages b dId fo1 s).flushCount =
      (crawlStep web pages b dId fo2 t).flushCount := by
  refine ⟨?_, ?_, ?_, ?_, ?_⟩ <;> simp [crawlStep, hv, hp, hq, he, hf]

theorem crawlRun_flush_independent (web : String → Option (List String))
    (pages : String → Option RenderedPage) (b : String) (dId : Nat)
    (fo1 fo2 : Nat → Bool) :
    ∀ (n : Nat) (s t : CrawlState), s.visited = t.visited → s.products = t.products →
      s.pending = t.pending → s.expanded = t.expanded → s.flushCount = t.flushCount →
      (crawlRun web pages b dId fo1 n s).visited =
        (crawlRun web pages b dId fo2 n t).visited ∧
      (crawlRun web pages b dId fo1 n s).products =
        (crawlRun web pages b dId fo2 n t).products ∧
      (crawlRun web pages b dId fo1 n s).pending =
        (crawlRun web pages b dId fo2 n t).pending := by
  intro n
  induction n with
  | zero =>
    intro s t hv hp hq he hf
    exact ⟨hv, hp, hq⟩
  | succ m ih =>
    intro s t hv hp hq he hf
    rw [crawlRun_succ, crawlRun_succ, hq]
    cases hemp : t.pending.isEmpty
    · simp only [Bool.false_eq_true, if_false]
      obtain ⟨a1, a2, a3, a4, a5⟩ :=
        crawlStep_agree web pages b dId fo1 fo2 s t hv hp hq he hf
      exact ih _ _ a1 a2 a3 a4 a5
    · simp only [if_true]
      exact ⟨hv, hp, hq⟩

/-- C9: the bulk upsert of `batchInsertProductUrls` is idempotent —
flushing the same URL list twice leaves the same storage as flushing it
once; with uniqueness on `url`, after a flush every flushed URL has
exactly one row and uniqueness is preserved; and flush outcomes never
leak into the crawl: the visited, product and frontier state of a run is
identical under any pattern of flush failures (which the source catches
and only logs). -/
theorem flush_idempotent_and_isolated :
    (∀ (st : List (String × Nat)) (urls : List String) (dId : Nat),
      flushRows (flushRows st urls dId) urls dId = flushRows st urls dId) ∧
    (∀ (st : List (String × Nat)) (urls : List String) (dId : Nat),
      (st.map Prod.fst).Nodup →
      ((flushRows st urls dId).map Prod.fst).Nodup ∧
      ∀ u ∈ urls, ((flushRows st urls dId).map Prod.fst).count u = 1) ∧
    (∀ (web : String → Option (List String)) (pages : String → Option RenderedPage)
      (b : String) (dId : Nat) (fo1 fo2 : Nat → Bool) (fuel : Nat),
      (crawlRun web pages b dId fo1 fuel (initCrawl b)).visited =
        (crawlRun web pages b dId fo2 fuel (initCrawl b)).visited ∧
      (crawlRun web pages b dId fo1 fuel (initCrawl b)).products =
        (crawlRun web pages b dId fo2 fuel (initCrawl b)).products ∧
      (crawlRun web pages b dId fo1 fuel (initCrawl b)).pending =
        (crawlRun web pages b dId fo2 fuel (initCrawl b)).pending) := by
  refine ⟨fun st urls dId => flushRows_idem st urls dId, ?_, ?_⟩
  · intro st urls dId h
    exact ⟨flushRows_nodup urls st dId h, fun u hu => flushRows_count st urls dId h u hu⟩
  · intro web pages b dId fo1 fo2 fuel
    exact crawlRun_flush_independent web pages b dId fo1 fo2 fuel _ _ rfl rfl rfl rfl rfl

/-- Witness for C9 at a concrete double flush. -/
theorem flush_idempotent_and_isolated_witness :
    flushRows
        (flushRows [] ["https://shop.example/product/1", "https://shop.example/product/2"] 7)
        ["https://shop.example/product/1", "https://shop.example/product/2"] 7 =
      flushRows [] ["https://shop.example/product/1", "https://shop.example/product/2"] 7 ∧
    ((flushRows [] ["https://shop.example/product/1", "https://shop.example/product/2"]
        7).map Prod.fst).count "https://shop.example/product/1" = 1 :=
  ⟨flush_idempotent_and_isolated.1 []
      ["https://shop.example/product/1", "https://shop.example/product/2"] 7,
   (flush_idempotent_and_isolated.2.1 []
      ["https://shop.example/product/1", "https://shop.example/product/2"] 7
      (by decide)).2 "https://shop.example/product/1" (by decide)⟩
